import Mathlib

/-!
# Proyecto_Intrumentacion: servo PWM demo and SHT1x platform layer

A shallow embedding of `src/Servo.c`, `src/SHT1x/SHT1x.h` and
`src/SHT1x/SHT1x_platform.c`, followed by the properties established for them.

Machine integers are carried as `Int`/`Nat` with explicit wrapping.
-/

namespace Servo

/-! ## `src/Servo.c` -/

/-- Minimum pulse width in microseconds (`#define SERVO_MIN_PULSEWIDTH_US 500`). -/
def SERVO_MIN_PULSEWIDTH_US : Int := 500

/-- Maximum pulse width in microseconds (`#define SERVO_MAX_PULSEWIDTH_US 2400`). -/
def SERVO_MAX_PULSEWIDTH_US : Int := 2400

/-- Minimum angle (`#define SERVO_MIN_DEGREE 0`). -/
def SERVO_MIN_DEGREE : Int := 0

/-- Maximum angle (`#define SERVO_MAX_DEGREE 180`). -/
def SERVO_MAX_DEGREE : Int := 180

/-- PWM period in ticks of 1 us (`#define SERVO_TIMEBASE_PERIOD 20000`). -/
def SERVO_TIMEBASE_PERIOD : Int := 20000

/-- Reduction of an integer to the range of a 32-bit two's complement `int`. -/
def wrapInt32 (x : Int) : Int := (x + 2147483648) % 4294967296 - 2147483648

/-- Conversion of an `int` to `uint32_t` (reduction modulo `2^32`). -/
def toUInt32 (x : Int) : Nat := (x % 4294967296).toNat

/-- The function `angle_to_compare` of `Servo.c`:
`(angle - MIN_DEG) * (MAX_PW - MIN_PW) / (MAX_DEG - MIN_DEG) + MIN_PW`, evaluated in
32-bit `int` arithmetic (the division truncates toward zero) and returned as `uint32_t`. -/
def angle_to_compare (angle : Int) : Nat :=
  toUInt32
    (wrapInt32
      (Int.tdiv
          (wrapInt32
            (wrapInt32 (angle - SERVO_MIN_DEGREE)
              * wrapInt32 (SERVO_MAX_PULSEWIDTH_US - SERVO_MIN_PULSEWIDTH_US)))
          (wrapInt32 (SERVO_MAX_DEGREE - SERVO_MIN_DEGREE))
        + SERVO_MIN_PULSEWIDTH_US))

/-- The compare value that `mcpwm_config` programs before the timer is started
(`mcpwm_comparator_set_compare_value(comparator, angle_to_compare(0))`, the line under the
comment "set the initial compare value, so that the servo will spin to the center
position"). -/
def mcpwm_config_initial_compare : Nat := angle_to_compare 0

/-- The angles `app_main` drives in each round of its loop, in order. -/
def app_main_angles : List Int := [120, 0]

/-- The middle of the configured angle range. -/
def centerDegree : Int := Int.tdiv (SERVO_MIN_DEGREE + SERVO_MAX_DEGREE) 2

end Servo

namespace SHT1x

/-! ## `src/SHT1x/SHT1x.h`: data types -/

/-- The enumeration `SHT1x_Resolution_t`. -/
inductive SHT1x_Resolution_t where
  | SHT1x_LowResolution
  | SHT1x_HighResolution
  deriving DecidableEq, Repr

/-- The enumeration `SHT1x_Result_t`. -/
inductive SHT1x_Result_t where
  | SHT1x_OK
  | SHT1x_FAIL
  | SHT1x_TIME_OUT
  deriving DecidableEq, Repr

/-- The static functions of `SHT1x_platform.c` whose addresses can be stored in a handle. -/
inductive PlatformFn where
  | SHT1x_Platform_PlatformInit
  | SHT1x_Platform_PlatformDeInit
  | SHT1x_Platform_DataConfigDir
  | SHT1x_Platform_DataWrite
  | SHT1x_Platform_DataRead
  | SHT1x_Platform_SckWrite
  | SHT1x_Platform_DelayMs
  | SHT1x_Platform_DelayUs
  deriving DecidableEq, Repr

/-- The value of a function-pointer field: the null pointer, one of the platform functions,
or any other function (given by its address). -/
inductive FnPtr where
  | null
  | platform (f : PlatformFn)
  | foreign (addr : Nat)
  deriving DecidableEq, Repr

/-- The structure `SHT1x_Handler_t`, over a carrier `F` of the C type `float`. -/
structure SHT1x_Handler_t (F : Type) where
  D1Celsius : F
  D1Fahrenheit : F
  ResolutionStatus : SHT1x_Resolution_t
  PlatformInit : FnPtr
  PlatformDeInit : FnPtr
  DataConfigDir : FnPtr
  DataWrite : FnPtr
  DataRead : FnPtr
  SckWrite : FnPtr
  DelayMs : FnPtr
  DelayUs : FnPtr

/-- The structure `SHT1x_Sample_t`, over a carrier `F` of the C type `float`;
the two raw counts are `uint16_t`. -/
structure SHT1x_Sample_t (F : Type) where
  TempRaw : Nat
  HumRaw : Nat
  TempCelsius : F
  TempFahrenheit : F
  HumidityPercent : F

/-! ## `src/SHT1x/SHT1x.h`: configuration and declared functions -/

/-- What the included `SHT1x_config.h` defines for each of the four configuration macros;
`none` when it leaves the macro undefined. -/
structure ConfigHeader where
  SHT1X_CONFIG_FAHRENHEIT_MEASUREMENT : Option Int
  SHT1X_CONFIG_RESOLUTION_CONTROL : Option Int
  SHT1X_CONFIG_POWER_VOLTAGE_CONTROL : Option Int
  SHT1X_CONFIG_INTERNAL_HEATER_CONTROL : Option Int

/-- The values of the four configuration macros after lines 16-31 of `SHT1x.h`. -/
structure Config where
  SHT1X_CONFIG_FAHRENHEIT_MEASUREMENT : Int
  SHT1X_CONFIG_RESOLUTION_CONTROL : Int
  SHT1X_CONFIG_POWER_VOLTAGE_CONTROL : Int
  SHT1X_CONFIG_INTERNAL_HEATER_CONTROL : Int

/-- One `#ifndef X` / `#define X 1` / `#endif` group. -/
def ifndefDefine1 (m : Option Int) : Int :=
  match m with
  | some v => v
  | none => 1

/-- Lines 16-31 of `SHT1x.h`: every macro left undefined by the configuration header
gets the value 1. -/
def applyDefaults (c : ConfigHeader) : Config :=
  { SHT1X_CONFIG_FAHRENHEIT_MEASUREMENT := ifndefDefine1 c.SHT1X_CONFIG_FAHRENHEIT_MEASUREMENT
    SHT1X_CONFIG_RESOLUTION_CONTROL := ifndefDefine1 c.SHT1X_CONFIG_RESOLUTION_CONTROL
    SHT1X_CONFIG_POWER_VOLTAGE_CONTROL := ifndefDefine1 c.SHT1X_CONFIG_POWER_VOLTAGE_CONTROL
    SHT1X_CONFIG_INTERNAL_HEATER_CONTROL :=
      ifndefDefine1 c.SHT1X_CONFIG_INTERNAL_HEATER_CONTROL }

/-- The configuration header that defines none of the macros. -/
def emptyConfigHeader : ConfigHeader :=
  { SHT1X_CONFIG_FAHRENHEIT_MEASUREMENT := none
    SHT1X_CONFIG_RESOLUTION_CONTROL := none
    SHT1X_CONFIG_POWER_VOLTAGE_CONTROL := none
    SHT1X_CONFIG_INTERNAL_HEATER_CONTROL := none }

/-- The default configuration: every flag is 1. -/
def defaultConfig : Config := applyDefaults emptyConfigHeader

/-- The functions `SHT1x.h` can declare. -/
inductive ApiFunction where
  | SHT1x_ReadSample
  | SHT1x_Init
  | SHT1x_DeInit
  | SHT1x_SoftReset
  | SHT1x_SetResolution
  | SHT1x_GetResolution
  | SHT1x_SetInternalHeater
  | SHT1x_GetInternalHeater
  | SHT1x_SetPowVoltage
  deriving DecidableEq, Repr

/-- The function declarations that survive preprocessing of `SHT1x.h`, in source order:
the four unconditional ones, the pair under `#if (SHT1X_CONFIG_RESOLUTION_CONTROL)`,
the pair under `#if (SHT1X_CONFIG_INTERNAL_HEATER_CONTROL)`, and the one under
`#if (SHT1X_CONFIG_POWER_VOLTAGE_CONTROL == 0)`. -/
def declaredApi (c : Config) : List ApiFunction :=
  [.SHT1x_ReadSample, .SHT1x_Init, .SHT1x_DeInit, .SHT1x_SoftReset]
    ++ (if c.SHT1X_CONFIG_RESOLUTION_CONTROL ≠ 0
          then [.SHT1x_SetResolution, .SHT1x_GetResolution] else [])
    ++ (if c.SHT1X_CONFIG_INTERNAL_HEATER_CONTROL ≠ 0
          then [.SHT1x_SetInternalHeater, .SHT1x_GetInternalHeater] else [])
    ++ (if c.SHT1X_CONFIG_POWER_VOLTAGE_CONTROL = 0
          then [.SHT1x_SetPowVoltage] else [])

/-! ## `src/SHT1x/SHT1x_platform.c` -/

/-- The direction of a pad as set by the ESP-IDF call `gpio_set_direction`
(`GPIO_MODE_DISABLE` is what `gpio_reset_pin` leaves). -/
inductive gpio_mode_t where
  | GPIO_MODE_DISABLE
  | GPIO_MODE_INPUT
  | GPIO_MODE_OUTPUT
  deriving DecidableEq, Repr

/-- The configuration of one pad: direction and the two pull resistors. -/
structure PinConfig where
  mode : gpio_mode_t
  pullUp : Bool
  pullDown : Bool
  deriving DecidableEq, Repr

/-- The configuration of every pad, by `gpio_num_t`. -/
abbrev GpioState := Nat → PinConfig

/-- The ESP-IDF call `gpio_reset_pin`: the pad returns to its default state, with input and
output disabled and the pull-up enabled. -/
def gpio_reset_pin (pad : Nat) (g : GpioState) : GpioState :=
  Function.update g pad
    { mode := .GPIO_MODE_DISABLE, pullUp := true, pullDown := false }

/-- The ESP-IDF call `gpio_set_direction`: only the direction of the pad changes. -/
def gpio_set_direction (pad : Nat) (m : gpio_mode_t) (g : GpioState) : GpioState :=
  Function.update g pad { g pad with mode := m }

/-- The ESP-IDF call `gpio_set_pull_mode(pad, GPIO_PULLUP_ONLY)`: pull-up on, pull-down
off, direction untouched. -/
def gpio_set_pull_mode_PULLUP_ONLY (pad : Nat) (g : GpioState) : GpioState :=
  Function.update g pad { g pad with pullUp := true, pullDown := false }

/-- The function `SHT1x_SetGPIO_OUT`. -/
def SHT1x_SetGPIO_OUT (GPIO_Pad : Nat) (g : GpioState) : GpioState :=
  gpio_set_direction GPIO_Pad .GPIO_MODE_OUTPUT (gpio_reset_pin GPIO_Pad g)

/-- The function `SHT1x_SetGPIO_IN_PU`. -/
def SHT1x_SetGPIO_IN_PU (GPIO_Pad : Nat) (g : GpioState) : GpioState :=
  gpio_set_pull_mode_PULLUP_ONLY GPIO_Pad
    (gpio_set_direction GPIO_Pad .GPIO_MODE_INPUT (gpio_reset_pin GPIO_Pad g))

/-- A GPIO state in which every pad is disabled and floating. -/
def allDisabled : GpioState :=
  fun _ => { mode := .GPIO_MODE_DISABLE, pullUp := false, pullDown := false }

/-- The function `SHT1x_Platform_DataConfigDir`. The pad number `SHT1x_DATA_GPIO` is a macro
of `SHT1x_platform.h` and is taken as a parameter. -/
def SHT1x_Platform_DataConfigDir ( SHT1x_DATA_GPIO : Nat) (Dir : Nat) (g : GpioState) :
    GpioState :=
  if Dir ≠ 0 then SHT1x_SetGPIO_OUT SHT1x_DATA_GPIO g
  else SHT1x_SetGPIO_IN_PU SHT1x_DATA_GPIO g

/-- The function `SHT1x_Platform_DelayMs`: the tick count it passes to `vTaskDelay`,
`Delay / portTICK_PERIOD_MS`. The tick period is fixed by the FreeRTOS configuration and
is a parameter. -/
def SHT1x_Platform_DelayMs (portTICK_PERIOD_MS : Nat) (Delay : Nat) : Nat :=
  Delay / portTICK_PERIOD_MS

/-- The time in milliseconds covered by the ticks `SHT1x_Platform_DelayMs` asks for. -/
def delayMsCovered (portTICK_PERIOD_MS : Nat) (Delay : Nat) : Nat :=
  SHT1x_Platform_DelayMs portTICK_PERIOD_MS Delay * portTICK_PERIOD_MS

/-- The function `SHT1x_Platform_Init`: eight assignments, then `return SHT1x_OK`. -/
def SHT1x_Platform_Init {F : Type} (Handler : SHT1x_Handler_t F) :
    SHT1x_Result_t × SHT1x_Handler_t F :=
  let h1 := { Handler with PlatformInit := .platform .SHT1x_Platform_PlatformInit }
  let h2 := { h1 with PlatformDeInit := .platform .SHT1x_Platform_PlatformDeInit }
  let h3 := { h2 with DataConfigDir := .platform .SHT1x_Platform_DataConfigDir }
  let h4 := { h3 with DataWrite := .platform .SHT1x_Platform_DataWrite }
  let h5 := { h4 with DataRead := .platform .SHT1x_Platform_DataRead }
  let h6 := { h5 with SckWrite := .platform .SHT1x_Platform_SckWrite }
  let h7 := { h6 with DelayMs := .platform .SHT1x_Platform_DelayMs }
  let h8 := { h7 with DelayUs := .platform .SHT1x_Platform_DelayUs }
  (.SHT1x_OK, h8)

/-! ## The driver core behind `SHT1x.h`

`SHT1x.h` declares `SHT1x_ReadSample`; its body lives in `SHT1x.c`. The definitions of this
section follow sections 4.1 to 4.3 of the specification. -/

/-- The behaviour of the eight hooks of `SHT1x_Handler_t` on a simulated platform whose
states are the elements of `σ`. Levels and delays are `uint8_t` values. -/
structure Binding (σ : Type) where
  PlatformInit : σ → σ
  PlatformDeInit : σ → σ
  DataConfigDir : Nat → σ → σ
  DataWrite : Nat → σ → σ
  DataRead : σ → Nat × σ
  SckWrite : Nat → σ → σ
  DelayMs : Nat → σ → σ
  DelayUs : Nat → σ → σ

/-- Modelled from the spec: the command byte of a temperature measurement (`SHT1x.c` is
missing; spec 4.2 "temperature=0x03"). -/
def SHT1x_CMD_MEASURE_TEMP : Nat := 0x03

/-- Modelled from the spec: the command byte of a humidity measurement (`SHT1x.c` is
missing; spec 4.2 "humidity=0x05"). -/
def SHT1x_CMD_MEASURE_HUM : Nat := 0x05

/-- Modelled from the spec: the budget of the data-ready wait of a measurement (`SHT1x.c`
is missing; spec 4.2 "320 retries of 1ms"). -/
def SHT1x_MEASURE_TIMEOUT_MS : Nat := 320

/-- Modelled from the spec: the magnitude handed to the microsecond delay hook between two
line transitions (`SHT1x.c` is missing; the spec fixes the hook, not the magnitude). -/
def SHT1x_BIT_DELAY_US : Nat := 1

/-- Modelled from the spec: the start sequence of `SHT1x.c` (missing): data high, clock
high, data low, clock low, clock high, data high, clock low, each transition separated by
the microsecond delay hook. -/
def SHT1x_StartSequence {σ : Type} (B : Binding σ) (s : σ) : σ :=
  let s := B.DataWrite 1 s
  let s := B.DelayUs SHT1x_BIT_DELAY_US s
  let s := B.SckWrite 1 s
  let s := B.DelayUs SHT1x_BIT_DELAY_US s
  let s := B.DataWrite 0 s
  let s := B.DelayUs SHT1x_BIT_DELAY_US s
  let s := B.SckWrite 0 s
  let s := B.DelayUs SHT1x_BIT_DELAY_US s
  let s := B.SckWrite 1 s
  let s := B.DelayUs SHT1x_BIT_DELAY_US s
  let s := B.DataWrite 1 s
  let s := B.DelayUs SHT1x_BIT_DELAY_US s
  B.SckWrite 0 s

/-- Modelled from the spec: the bit loop of Write-Byte in `SHT1x.c` (missing): the
remaining `n` low bits of `value` go out most significant first, each driven on data and
followed by one clock pulse. -/
def SHT1x_WriteBits {σ : Type} (B : Binding σ) (value : Nat) : Nat → σ → σ
  | 0, s => s
  | n + 1, s =>
    let s := B.DataWrite (value / 2 ^ n % 2) s
    let s := B.DelayUs SHT1x_BIT_DELAY_US s
    let s := B.SckWrite 1 s
    let s := B.DelayUs SHT1x_BIT_DELAY_US s
    let s := B.SckWrite 0 s
    let s := B.DelayUs SHT1x_BIT_DELAY_US s
    SHT1x_WriteBits B value n s

/-- Modelled from the spec: Write-Byte of `SHT1x.c` (missing): eight bits out, then data is
released (line switched to input) and one more clock pulse samples the acknowledgment;
data low is ACK and gives OK, anything else gives FAIL. -/
def SHT1x_WriteByte {σ : Type} (B : Binding σ) (value : Nat) (s : σ) : SHT1x_Result_t × σ :=
  let s := SHT1x_WriteBits B value 8 s
  let s := B.DataConfigDir 0 s
  let s := B.SckWrite 1 s
  let s := B.DelayUs SHT1x_BIT_DELAY_US s
  let r := B.DataRead s
  let s := B.SckWrite 0 r.2
  let s := B.DelayUs SHT1x_BIT_DELAY_US s
  (if r.1 = 0 then .SHT1x_OK else .SHT1x_FAIL, s)

/-- Modelled from the spec: the bit loop of Read-Byte in `SHT1x.c` (missing): `n` more
bits are shifted into `acc`, most significant first, each sampled during a clock pulse. -/
def SHT1x_ReadBits {σ : Type} (B : Binding σ) : Nat → Nat → σ → Nat × σ
  | 0, acc, s => (acc, s)
  | n + 1, acc, s =>
    let s := B.SckWrite 1 s
    let s := B.DelayUs SHT1x_BIT_DELAY_US s
    let r := B.DataRead s
    let s := B.SckWrite 0 r.2
    let s := B.DelayUs SHT1x_BIT_DELAY_US s
    SHT1x_ReadBits B n (2 * acc + (if r.1 = 0 then 0 else 1)) s

/-- Modelled from the spec: Read-Byte of `SHT1x.c` (missing): the line is switched to
input, eight bits are shifted in, then data is driven to `ackBit` and the clock pulsed. -/
def SHT1x_ReadByte {σ : Type} (B : Binding σ) (ackBit : Nat) (s : σ) : Nat × σ :=
  let s := B.DataConfigDir 0 s
  let r := SHT1x_ReadBits B 8 0 s
  let s := B.DataConfigDir 1 r.2
  let s := B.DataWrite ackBit s
  let s := B.SckWrite 1 s
  let s := B.DelayUs SHT1x_BIT_DELAY_US s
  let s := B.SckWrite 0 s
  let s := B.DelayUs SHT1x_BIT_DELAY_US s
  (r.1, s)

/-- Modelled from the spec: Wait-for-data-ready of `SHT1x.c` (missing): the data line is
polled while the countdown lasts, one millisecond apart; OK as soon as it reads low,
TIME_OUT when the countdown is exhausted. -/
def SHT1x_WaitDataReady {σ : Type} (B : Binding σ) : Nat → σ → SHT1x_Result_t × σ
  | 0, s => (.SHT1x_TIME_OUT, s)
  | n + 1, s =>
    let r := B.DataRead s
    if r.1 = 0 then (.SHT1x_OK, r.2)
    else SHT1x_WaitDataReady B n (B.DelayMs 1 r.2)

/-- Modelled from the spec: the measurement sequence of `SHT1x.c` (missing): start,
command byte with ACK check, data-ready wait, high byte (ack = continue), low byte
(ack = stop), raw value assembled big-endian. The raw value is written through `Raw` only
on success. -/
def SHT1x_Measure {σ : Type} (B : Binding σ) (cmd : Nat) (Raw : Nat) (s : σ) :
    SHT1x_Result_t × Nat × σ :=
  let s := SHT1x_StartSequence B s
  let w := SHT1x_WriteByte B cmd s
  if w.1 ≠ .SHT1x_OK then (.SHT1x_FAIL, Raw, w.2)
  else
    let d := SHT1x_WaitDataReady B SHT1x_MEASURE_TIMEOUT_MS w.2
    if d.1 ≠ .SHT1x_OK then (.SHT1x_TIME_OUT, Raw, d.2)
    else
      let hi := SHT1x_ReadByte B 0 d.2
      let lo := SHT1x_ReadByte B 1 hi.2
      (.SHT1x_OK, (hi.1 * 256 + lo.1) % 65536, lo.2)

/-- The five constants of the humidity formula for one resolution. -/
structure HumidityConstants where
  C1 : ℚ
  C2 : ℚ
  C3 : ℚ
  T1 : ℚ
  T2 : ℚ

/-- The conversion constants whose values the specification leaves open: the temperature
slope at low resolution and the humidity constants of both resolutions. -/
structure ConversionConstants where
  D2Low : ℚ
  HumLow : HumidityConstants
  HumHigh : HumidityConstants

/-- Modelled from the spec: the default offset D1 for a 5 V supply (`SHT1x.c` is missing;
spec 8 "D1=-40.1"). -/
def SHT1x_D1_5V : ℚ := -401 / 10

/-- Modelled from the spec: the slope D2 for each resolution (`SHT1x.c` is missing; spec 8
"D2=0.01" at high resolution). -/
def SHT1x_D2 (k : ConversionConstants) : SHT1x_Resolution_t → ℚ
  | .SHT1x_HighResolution => 1 / 100
  | .SHT1x_LowResolution => k.D2Low

/-- Modelled from the spec: the temperature conversion of `SHT1x.c` (missing), over exact
rationals: the offset D1 of the handle plus the slope D2 times the raw count (spec 4.3 and
the scenario of spec 8, `1879 x 0.01 - 40.1`). -/
def SHT1x_TempCelsius (k : ConversionConstants) (Handler : SHT1x_Handler_t ℚ) (raw : Nat) :
    ℚ :=
  Handler.D1Celsius + SHT1x_D2 k Handler.ResolutionStatus * raw

/-- Modelled from the spec: the Fahrenheit conversion of `SHT1x.c` (missing):
Celsius x 9/5 + 32. -/
def SHT1x_TempFahrenheit (celsius : ℚ) : ℚ := celsius * 9 / 5 + 32

/-- Modelled from the spec: the humidity conversion of `SHT1x.c` (missing):
`RHlinear = C1 + C2 raw + C3 raw^2`, then `(T - 25) (T1 + T2 raw) + RHlinear`, unclamped. -/
def SHT1x_Humidity (k : ConversionConstants) (Handler : SHT1x_Handler_t ℚ) (celsius : ℚ)
    (raw : Nat) : ℚ :=
  let c := match Handler.ResolutionStatus with
    | .SHT1x_HighResolution => k.HumHigh
    | .SHT1x_LowResolution => k.HumLow
  (celsius - 25) * (c.T1 + c.T2 * raw) + (c.C1 + c.C2 * raw + c.C3 * (raw : ℚ) ^ 2)

/-- Modelled from the spec: `SHT1x_ReadSample` of `SHT1x.c` (missing): temperature
measurement, then humidity measurement; the first error ends the call; on success both raw
counts are converted and the sample is populated (Fahrenheit only when that feature is
enabled). -/
def SHT1x_ReadSample {σ : Type} (B : Binding σ) (cfg : Config) (k : ConversionConstants)
    (Handler : SHT1x_Handler_t ℚ) (Sample : SHT1x_Sample_t ℚ) (s : σ) :
    SHT1x_Result_t × SHT1x_Sample_t ℚ × σ :=
  let t := SHT1x_Measure B SHT1x_CMD_MEASURE_TEMP Sample.TempRaw s
  if t.1 ≠ .SHT1x_OK then (t.1, Sample, t.2.2)
  else
    let Sample := { Sample with TempRaw := t.2.1 }
    let u := SHT1x_Measure B SHT1x_CMD_MEASURE_HUM Sample.HumRaw t.2.2
    if u.1 ≠ .SHT1x_OK then (u.1, Sample, u.2.2)
    else
      let c := SHT1x_TempCelsius k Handler t.2.1
      let Sample := { Sample with
        HumRaw := u.2.1
        TempCelsius := c
        TempFahrenheit :=
          if cfg.SHT1X_CONFIG_FAHRENHEIT_MEASUREMENT ≠ 0 then SHT1x_TempFahrenheit c
          else Sample.TempFahrenheit
        HumidityPercent := SHT1x_Humidity k Handler c u.2.1 }
      (.SHT1x_OK, Sample, u.2.2)

/-! ### Observations of one run of `SHT1x_ReadSample` -/

/-- The state in which the command byte of a measurement started in `s` has been sent. -/
def afterCommand {σ : Type} (B : Binding σ) (cmd : Nat) (s : σ) : SHT1x_Result_t × σ :=
  SHT1x_WriteByte B cmd (SHT1x_StartSequence B s)

/-- Whether the command byte of a measurement started in `s` is acknowledged. -/
def commandAcked {σ : Type} (B : Binding σ) (cmd : Nat) (s : σ) : Bool :=
  decide ((afterCommand B cmd s).1 = .SHT1x_OK)

/-- The outcome of the data-ready wait of a measurement started in `s`. -/
def afterWait {σ : Type} (B : Binding σ) (cmd : Nat) (s : σ) : SHT1x_Result_t × σ :=
  SHT1x_WaitDataReady B SHT1x_MEASURE_TIMEOUT_MS (afterCommand B cmd s).2

/-- Whether the data-ready wait of a measurement started in `s` ends before its budget. -/
def dataReady {σ : Type} (B : Binding σ) (cmd : Nat) (s : σ) : Bool :=
  decide ((afterWait B cmd s).1 = .SHT1x_OK)

/-- The first byte read by a measurement started in `s` (with ack = continue). -/
def highByte {σ : Type} (B : Binding σ) (cmd : Nat) (s : σ) : Nat × σ :=
  SHT1x_ReadByte B 0 (afterWait B cmd s).2

/-- The second byte read by a measurement started in `s` (with ack = stop). -/
def lowByte {σ : Type} (B : Binding σ) (cmd : Nat) (s : σ) : Nat × σ :=
  SHT1x_ReadByte B 1 (highByte B cmd s).2

/-- The state in which the humidity measurement of a sample read from `s` starts. -/
def humidityStart {σ : Type} (B : Binding σ) (s : σ) : σ :=
  (SHT1x_Measure B SHT1x_CMD_MEASURE_TEMP 0 s).2.2

/-- A simulated platform whose state is the list of levels the data line will show at the
coming reads (high once the list is used up); writes and delays leave it alone. -/
def scriptedBinding : Binding (List Nat) :=
  { PlatformInit := fun s => s
    PlatformDeInit := fun s => s
    DataConfigDir := fun _ s => s
    DataWrite := fun _ s => s
    DataRead := fun s => (s.headD 1, s.tail)
    SckWrite := fun _ s => s
    DelayMs := fun _ s => s
    DelayUs := fun _ s => s }

/-- The levels of the eight bits of a byte, most significant first. -/
def byteLevels (b : Nat) : List Nat :=
  (List.range 8).map (fun i => b / 2 ^ (7 - i) % 2)

/-- The levels a responsive sensor shows during one measurement: ACK, one busy poll, data
ready, then the two bytes. -/
def measurementLevels (hi lo : Nat) : List Nat :=
  [0, 1, 0] ++ byteLevels hi ++ byteLevels lo

/-- A handle at high resolution with the 5 V offset and no hook bound. -/
def sampleHandler : SHT1x_Handler_t ℚ :=
  { D1Celsius := SHT1x_D1_5V, D1Fahrenheit := 0
    ResolutionStatus := .SHT1x_HighResolution
    PlatformInit := .null, PlatformDeInit := .null, DataConfigDir := .null
    DataWrite := .null, DataRead := .null, SckWrite := .null
    DelayMs := .null, DelayUs := .null }

/-- A sample with every field zero. -/
def zeroSample : SHT1x_Sample_t ℚ :=
  { TempRaw := 0, HumRaw := 0, TempCelsius := 0, TempFahrenheit := 0, HumidityPercent := 0 }

/-- Conversion constants with every open value zero. -/
def zeroConstants : ConversionConstants :=
  { D2Low := 0
    HumLow := { C1 := 0, C2 := 0, C3 := 0, T1 := 0, T2 := 0 }
    HumHigh := { C1 := 0, C2 := 0, C3 := 0, T1 := 0, T2 := 0 } }

end SHT1x

set_option maxRecDepth 100000

namespace Servo

/-! ## Properties of `angle_to_compare` -/

/-- On the configured angle range no intermediate value wraps, and the result is
`500 + angle * 1900 / 180` with the flooring division. -/
theorem angle_to_compare_eq (angle : Int) (h0 : 0 ≤ angle) (h1 : angle ≤ 180) :
    (angle_to_compare angle : Int) = 500 + angle * 1900 / 180 := by
  have hw1 : wrapInt32 (angle - SERVO_MIN_DEGREE) = angle := by
    unfold wrapInt32 SERVO_MIN_DEGREE; omega
  have hw2 : wrapInt32 (SERVO_MAX_PULSEWIDTH_US - SERVO_MIN_PULSEWIDTH_US) = 1900 := by
    decide
  have hw3 : wrapInt32 (SERVO_MAX_DEGREE - SERVO_MIN_DEGREE) = 180 := by decide
  have hw4 : wrapInt32 (angle * 1900) = angle * 1900 := by
    unfold wrapInt32; omega
  have hd : Int.tdiv (angle * 1900) 180 = angle * 1900 / 180 :=
    Int.tdiv_eq_ediv (by omega) (by omega)
  have hw5 : wrapInt32 (angle * 1900 / 180 + SERVO_MIN_PULSEWIDTH_US)
      = angle * 1900 / 180 + 500 := by
    unfold wrapInt32 SERVO_MIN_PULSEWIDTH_US; omega
  unfold angle_to_compare
  rw [hw1, hw2, hw3, hw4, hd, hw5]
  unfold toUInt32
  omega

end Servo

namespace Servo

/-- C7. For every angle with `SERVO_MIN_DEGREE <= angle <= SERVO_MAX_DEGREE`,
`angle_to_compare angle` lies between the minimum and the maximum pulse width, 500 and
2400, hence below the PWM period of 20000 ticks; the end points are mapped exactly,
`angle_to_compare 0 = 500` and `angle_to_compare 180 = 2400`. -/
theorem angle_to_compare_within_pulse_range (angle : Int)
    (hmin : SERVO_MIN_DEGREE ≤ angle) (hmax : angle ≤ SERVO_MAX_DEGREE) :
    (SERVO_MIN_PULSEWIDTH_US ≤ (angle_to_compare angle : Int)
        ∧ (angle_to_compare angle : Int) ≤ SERVO_MAX_PULSEWIDTH_US)
      ∧ (500 ≤ angle_to_compare angle ∧ angle_to_compare angle ≤ 2400)
      ∧ (angle_to_compare angle : Int) < SERVO_TIMEBASE_PERIOD
      ∧ angle_to_compare SERVO_MIN_DEGREE = 500
      ∧ angle_to_compare SERVO_MAX_DEGREE = 2400 := by
  have h0 : 0 ≤ angle := by unfold SERVO_MIN_DEGREE at hmin; exact hmin
  have h1 : angle ≤ 180 := by unfold SERVO_MAX_DEGREE at hmax; exact hmax
  have he := angle_to_compare_eq angle h0 h1
  have e0 := angle_to_compare_eq 0 (by omega) (by omega)
  have e180 := angle_to_compare_eq 180 (by omega) (by omega)
  unfold SERVO_MIN_PULSEWIDTH_US SERVO_MAX_PULSEWIDTH_US SERVO_TIMEBASE_PERIOD
    SERVO_MIN_DEGREE SERVO_MAX_DEGREE
  refine ⟨⟨?_, ?_⟩, ⟨?_, ?_⟩, ?_, ?_, ?_⟩ <;> omega

/-- Witness of C7 at the angle 90. -/
theorem angle_to_compare_within_pulse_range_witness :
    (SERVO_MIN_DEGREE ≤ 90 ∧ (90 : Int) ≤ SERVO_MAX_DEGREE)
      ∧ (500 ≤ angle_to_compare 90 ∧ angle_to_compare 90 ≤ 2400) :=
  ⟨⟨by decide, by decide⟩,
    (angle_to_compare_within_pulse_range 90 (by decide) (by decide)).2.1⟩

/-- C8, evaluated on the code: the compare value `mcpwm_config` programs is
`angle_to_compare 0 = 500`, the minimum pulse width, whereas the middle of the configured
angle range, 90 degrees, has the compare value 1450 (the mid pulse width
`(500 + 2400) / 2`); the two differ, so the initial value is not the center position. -/
theorem mcpwm_config_initial_compare_is_minimum :
    mcpwm_config_initial_compare = 500
      ∧ centerDegree = 90
      ∧ angle_to_compare centerDegree = 1450
      ∧ (1450 : Int) = (SERVO_MIN_PULSEWIDTH_US + SERVO_MAX_PULSEWIDTH_US) / 2
      ∧ mcpwm_config_initial_compare ≠ angle_to_compare centerDegree := by
  decide

/-- C9. For every angle in 0..180, `angle_to_compare angle` is the linear interpolation
`500 + 1900 * angle / 180` rounded down: it does not exceed the exact rational value, is
less than 1 below it, and equals `500 + floor (1900 * angle / 180)`. For the angles
`app_main` drives, `angle_to_compare 120 = 1766` and `angle_to_compare 0 = 500`. -/
theorem angle_to_compare_floor_interpolation (angle : Int)
    (h0 : 0 ≤ angle) (h1 : angle ≤ 180) :
    ((angle_to_compare angle : ℚ) ≤ 500 + 1900 * (angle : ℚ) / 180
        ∧ 500 + 1900 * (angle : ℚ) / 180 < (angle_to_compare angle : ℚ) + 1)
      ∧ (angle_to_compare angle : Int) = 500 + ⌊(1900 * (angle : ℚ) / 180)⌋
      ∧ app_main_angles.map angle_to_compare = [1766, 500] := by
  have he := angle_to_compare_eq angle h0 h1
  have hfloor : ⌊(1900 * (angle : ℚ) / 180)⌋ = angle * 1900 / 180 := by
    have h : (1900 * (angle : ℚ) / 180) = ((angle * 1900 : Int) : ℚ) / ((180 : Nat) : ℚ) := by
      push_cast; ring
    rw [h, Rat.floor_intCast_div_natCast]
    rfl
  have hq : ((angle_to_compare angle : Int) : ℚ) = (angle_to_compare angle : ℚ) := by
    push_cast; rfl
  have hfl := Int.floor_le (1900 * (angle : ℚ) / 180)
  have hlt := Int.lt_floor_add_one (1900 * (angle : ℚ) / 180)
  have hv : (angle_to_compare angle : ℚ) = 500 + (⌊(1900 * (angle : ℚ) / 180)⌋ : ℚ) := by
    rw [← hq, he, hfloor]; push_cast; ring
  refine ⟨⟨?_, ?_⟩, ?_, by decide⟩
  · rw [hv]; linarith
  · rw [hv]; linarith
  · rw [he, hfloor]

/-- Witness of C9 at the angle 120, which `app_main` drives. -/
theorem angle_to_compare_floor_interpolation_witness :
    ((0 : Int) ≤ 120 ∧ (120 : Int) ≤ 180)
      ∧ (angle_to_compare 120 : Int) = 500 + ⌊(1900 * ((120 : Int) : ℚ) / 180)⌋ :=
  ⟨⟨by decide, by decide⟩,
    (angle_to_compare_floor_interpolation 120 (by decide) (by decide)).2.1⟩

end Servo

namespace SHT1x

/-! ## Platform layer -/

/-- C1. For every handle, `SHT1x_Platform_Init` returns `SHT1x_OK` and leaves each of the
eight hooks bound to its platform implementation, so none is left null, while `D1Celsius`,
`D1Fahrenheit` and `ResolutionStatus` keep their values. -/
theorem SHT1x_Platform_Init_binds_every_hook {F : Type} (Handler : SHT1x_Handler_t F) :
    (SHT1x_Platform_Init Handler).1 = .SHT1x_OK
      ∧ ((SHT1x_Platform_Init Handler).2.PlatformInit
            = .platform .SHT1x_Platform_PlatformInit
          ∧ (SHT1x_Platform_Init Handler).2.PlatformDeInit
            = .platform .SHT1x_Platform_PlatformDeInit
          ∧ (SHT1x_Platform_Init Handler).2.DataConfigDir
            = .platform .SHT1x_Platform_DataConfigDir
          ∧ (SHT1x_Platform_Init Handler).2.DataWrite = .platform .SHT1x_Platform_DataWrite
          ∧ (SHT1x_Platform_Init Handler).2.DataRead = .platform .SHT1x_Platform_DataRead
          ∧ (SHT1x_Platform_Init Handler).2.SckWrite = .platform .SHT1x_Platform_SckWrite
          ∧ (SHT1x_Platform_Init Handler).2.DelayMs = .platform .SHT1x_Platform_DelayMs
          ∧ (SHT1x_Platform_Init Handler).2.DelayUs = .platform .SHT1x_Platform_DelayUs)
      ∧ ((SHT1x_Platform_Init Handler).2.PlatformInit ≠ .null
          ∧ (SHT1x_Platform_Init Handler).2.PlatformDeInit ≠ .null
          ∧ (SHT1x_Platform_Init Handler).2.DataConfigDir ≠ .null
          ∧ (SHT1x_Platform_Init Handler).2.DataWrite ≠ .null
          ∧ (SHT1x_Platform_Init Handler).2.DataRead ≠ .null
          ∧ (SHT1x_Platform_Init Handler).2.SckWrite ≠ .null
          ∧ (SHT1x_Platform_Init Handler).2.DelayMs ≠ .null
          ∧ (SHT1x_Platform_Init Handler).2.DelayUs ≠ .null)
      ∧ ((SHT1x_Platform_Init Handler).2.D1Celsius = Handler.D1Celsius
          ∧ (SHT1x_Platform_Init Handler).2.D1Fahrenheit = Handler.D1Fahrenheit
          ∧ (SHT1x_Platform_Init Handler).2.ResolutionStatus = Handler.ResolutionStatus) := by
  refine ⟨rfl, ⟨rfl, rfl, rfl, rfl, rfl, rfl, rfl, rfl⟩, ?_, ⟨rfl, rfl, rfl⟩⟩
  simp [SHT1x_Platform_Init]

/-- C2. For every 8-bit `Dir`, `SHT1x_Platform_DataConfigDir` leaves the data pad an
output when `Dir` is non-zero and an input with pull-up only when `Dir` is 0; the
configuration of the clock pad, a pad other than the data pad, is unchanged. -/
theorem SHT1x_Platform_DataConfigDir_direction ( SHT1x_SCK_GPIO SHT1x_DATA_GPIO : Nat)
    (Dir : Nat) (g : GpioState) (hDir : Dir < 256)
    (hpads : SHT1x_SCK_GPIO ≠ SHT1x_DATA_GPIO) :
    (Dir ≠ 0 →
        (SHT1x_Platform_DataConfigDir SHT1x_DATA_GPIO Dir g SHT1x_DATA_GPIO).mode
          = .GPIO_MODE_OUTPUT)
      ∧ (Dir = 0 →
        SHT1x_Platform_DataConfigDir SHT1x_DATA_GPIO Dir g SHT1x_DATA_GPIO
          = { mode := .GPIO_MODE_INPUT, pullUp := true, pullDown := false })
      ∧ SHT1x_Platform_DataConfigDir SHT1x_DATA_GPIO Dir g SHT1x_SCK_GPIO
          = g SHT1x_SCK_GPIO := by
  have _ := hDir
  refine ⟨?_, ?_, ?_⟩
  · intro h
    simp [SHT1x_Platform_DataConfigDir, h, SHT1x_SetGPIO_OUT, gpio_set_direction,
      gpio_reset_pin]
  · intro h
    simp [SHT1x_Platform_DataConfigDir, h, SHT1x_SetGPIO_IN_PU,
      gpio_set_pull_mode_PULLUP_ONLY, gpio_set_direction, gpio_reset_pin]
  · by_cases h : Dir = 0
    · simp [SHT1x_Platform_DataConfigDir, h, SHT1x_SetGPIO_IN_PU,
        gpio_set_pull_mode_PULLUP_ONLY, gpio_set_direction, gpio_reset_pin,
        Function.update_noteq hpads]
    · simp [SHT1x_Platform_DataConfigDir, h, SHT1x_SetGPIO_OUT, gpio_set_direction,
        gpio_reset_pin, Function.update_noteq hpads]

/-- Witness of C2: clock on pad 18, data on pad 19, `Dir = 1` on a state with every pad
disabled. -/
theorem SHT1x_Platform_DataConfigDir_direction_witness :
    ((1 : Nat) < 256 ∧ (18 : Nat) ≠ 19)
      ∧ (SHT1x_Platform_DataConfigDir 19 1 allDisabled 19).mode = .GPIO_MODE_OUTPUT
      ∧ SHT1x_Platform_DataConfigDir 19 1 allDisabled 18 = allDisabled 18 :=
  ⟨⟨by decide, by decide⟩,
    (SHT1x_Platform_DataConfigDir_direction 18 19 1 allDisabled (by decide) (by decide)).1
      (by decide),
    (SHT1x_Platform_DataConfigDir_direction 18 19 1 allDisabled (by decide) (by decide)).2.2⟩

/-- C3, evaluated on the code: with a tick period of 10 ms, `SHT1x_Platform_DelayMs 11`
passes `11 / 10 = 1` tick to `vTaskDelay`, which covers 10 ms, less than the 11 ms asked
for; and a delay shorter than one tick period asks for no tick at all. -/
theorem SHT1x_Platform_DelayMs_truncates :
    SHT1x_Platform_DelayMs 10 11 = 1
      ∧ delayMsCovered 10 11 = 10
      ∧ ¬ (11 ≤ delayMsCovered 10 11)
      ∧ SHT1x_Platform_DelayMs 10 1 = 0 := by
  decide

/-- The ticks `SHT1x_Platform_DelayMs` asks for never cover more than `Delay`
milliseconds, and cover `Delay` exactly when the tick period divides it. -/
theorem delayMsCovered_le (P Delay : Nat) :
    delayMsCovered P Delay ≤ Delay
      ∧ (Delay ≤ delayMsCovered P Delay ↔ P ∣ Delay) := by
  unfold delayMsCovered SHT1x_Platform_DelayMs
  refine ⟨Nat.div_mul_le_self Delay P, ?_⟩
  constructor
  · intro h
    have := Nat.div_mul_le_self Delay P
    exact Dvd.intro_left _ (Nat.le_antisymm this h)
  · intro h
    rw [Nat.div_mul_cancel h]

/-! ## The functions declared by `SHT1x.h` -/

/-- C4, evaluated on the code: `SHT1x_SetPowVoltage` is declared exactly when
`SHT1X_CONFIG_POWER_VOLTAGE_CONTROL` is 0, so under the default configuration, where the
flag is 1, it is not declared, while the resolution and heater functions, guarded by
`#if (FLAG)`, are. -/
theorem SHT1x_SetPowVoltage_absent_by_default :
    defaultConfig.SHT1X_CONFIG_POWER_VOLTAGE_CONTROL = 1
      ∧ ApiFunction.SHT1x_SetPowVoltage ∉ declaredApi defaultConfig
      ∧ ApiFunction.SHT1x_SetResolution ∈ declaredApi defaultConfig
      ∧ ApiFunction.SHT1x_GetResolution ∈ declaredApi defaultConfig
      ∧ ApiFunction.SHT1x_SetInternalHeater ∈ declaredApi defaultConfig
      ∧ ApiFunction.SHT1x_GetInternalHeater ∈ declaredApi defaultConfig := by
  decide

/-- For every configuration, `SHT1x_SetPowVoltage` is declared if and only if
`SHT1X_CONFIG_POWER_VOLTAGE_CONTROL` is 0. -/
theorem SHT1x_SetPowVoltage_declared_iff (c : Config) :
    ApiFunction.SHT1x_SetPowVoltage ∈ declaredApi c
      ↔ c.SHT1X_CONFIG_POWER_VOLTAGE_CONTROL = 0 := by
  unfold declaredApi
  by_cases h1 : c.SHT1X_CONFIG_RESOLUTION_CONTROL = 0 <;>
    by_cases h2 : c.SHT1X_CONFIG_INTERNAL_HEATER_CONTROL = 0 <;>
    by_cases h3 : c.SHT1X_CONFIG_POWER_VOLTAGE_CONTROL = 0 <;>
    simp [h1, h2, h3]

end SHT1x

namespace SHT1x

/-! ## Measurement sequence and `SHT1x_ReadSample` -/

/-- The bit loop of Read-Byte adds `n` bits below the accumulator. -/
theorem SHT1x_ReadBits_lt {σ : Type} (B : Binding σ) (n : Nat) :
    ∀ (acc : Nat) (s : σ), (SHT1x_ReadBits B n acc s).1 < 2 ^ n * (acc + 1) := by
  induction n with
  | zero => intro acc s; simp [SHT1x_ReadBits]
  | succ n ih =>
    intro acc s
    simp only [SHT1x_ReadBits]
    refine lt_of_lt_of_le (ih _ _) ?_
    have hb : (if (B.DataRead (B.DelayUs SHT1x_BIT_DELAY_US (B.SckWrite 1 s))).1 = 0
        then 0 else 1) ≤ 1 := by split <;> omega
    calc 2 ^ n * (2 * acc + (if (B.DataRead (B.DelayUs SHT1x_BIT_DELAY_US
              (B.SckWrite 1 s))).1 = 0 then 0 else 1) + 1)
        ≤ 2 ^ n * (2 * acc + 1 + 1) := by
          apply Nat.mul_le_mul_left; omega
      _ = 2 ^ (n + 1) * (acc + 1) := by ring

/-- Read-Byte returns an 8-bit value. -/
theorem SHT1x_ReadByte_lt {σ : Type} (B : Binding σ) (ackBit : Nat) (s : σ) :
    (SHT1x_ReadByte B ackBit s).1 < 256 := by
  have h := SHT1x_ReadBits_lt B 8 0 (B.DataConfigDir 0 s)
  simpa [SHT1x_ReadByte] using h

/-- The measurement sequence by cases: FAIL when the command is not acknowledged, TIME_OUT
when the wait runs out, otherwise OK with the two bytes assembled big-endian. -/
theorem SHT1x_Measure_eq {σ : Type} (B : Binding σ) (cmd Raw : Nat) (s : σ) :
    SHT1x_Measure B cmd Raw s =
      if commandAcked B cmd s = false then
        (.SHT1x_FAIL, Raw, (afterCommand B cmd s).2)
      else if dataReady B cmd s = false then
        (.SHT1x_TIME_OUT, Raw, (afterWait B cmd s).2)
      else
        (.SHT1x_OK, (highByte B cmd s).1 * 256 + (lowByte B cmd s).1, (lowByte B cmd s).2) := by
  have hhi := SHT1x_ReadByte_lt B 0 (afterWait B cmd s).2
  have hlo := SHT1x_ReadByte_lt B 1 (highByte B cmd s).2
  have hmod : ((highByte B cmd s).1 * 256 + (lowByte B cmd s).1) % 65536
      = (highByte B cmd s).1 * 256 + (lowByte B cmd s).1 := by
    apply Nat.mod_eq_of_lt
    have hhi2 : (highByte B cmd s).1 < 256 := hhi
    have hlo2 : (lowByte B cmd s).1 < 256 := hlo
    omega
  unfold SHT1x_Measure
  by_cases ha : (afterCommand B cmd s).1 = .SHT1x_OK
  · by_cases hd : (afterWait B cmd s).1 = .SHT1x_OK
    · have ha' : (SHT1x_WriteByte B cmd (SHT1x_StartSequence B s)).1 = .SHT1x_OK := ha
      have hd' : (SHT1x_WaitDataReady B SHT1x_MEASURE_TIMEOUT_MS
          (SHT1x_WriteByte B cmd (SHT1x_StartSequence B s)).2).1 = .SHT1x_OK := hd
      simp only [commandAcked, dataReady, ha, hd, ha', hd', decide_True, ne_eq,
        not_true_eq_false, if_false, Bool.true_eq_false]
      rw [← hmod]
      rfl
    · have ha' : (SHT1x_WriteByte B cmd (SHT1x_StartSequence B s)).1 = .SHT1x_OK := ha
      have hd' : ¬ (SHT1x_WaitDataReady B SHT1x_MEASURE_TIMEOUT_MS
          (SHT1x_WriteByte B cmd (SHT1x_StartSequence B s)).2).1 = .SHT1x_OK := hd
      simp only [commandAcked, dataReady, ha, hd, ha', hd', decide_True, decide_False,
        ne_eq, not_true_eq_false, not_false_eq_true, if_false, if_true,
        Bool.true_eq_false]
      rfl
  · have ha' : ¬ (SHT1x_WriteByte B cmd (SHT1x_StartSequence B s)).1 = .SHT1x_OK := ha
    simp only [commandAcked, ha, ha', decide_False, ne_eq, not_false_eq_true, if_true]
    rfl

/-- The state a measurement ends in does not depend on the value behind `Raw`. -/
theorem SHT1x_Measure_state {σ : Type} (B : Binding σ) (cmd Raw Raw2 : Nat) (s : σ) :
    (SHT1x_Measure B cmd Raw s).2.2 = (SHT1x_Measure B cmd Raw2 s).2.2
      ∧ (SHT1x_Measure B cmd Raw s).1 = (SHT1x_Measure B cmd Raw2 s).1 := by
  rw [SHT1x_Measure_eq, SHT1x_Measure_eq]
  by_cases ha : commandAcked B cmd s = false
  · simp [ha]
  · by_cases hd : dataReady B cmd s = false
    · simp [ha, hd]
    · simp [ha, hd]

end SHT1x

namespace SHT1x

/-- C6. For every simulated platform binding, `SHT1x_ReadSample` runs the temperature
measurement and then, from the state it ends in, the humidity measurement, and returns
the first error or OK: FAIL when the temperature command is not acknowledged, TIME_OUT
when the temperature wait runs out, FAIL when the humidity command is not acknowledged,
TIME_OUT when only the humidity wait runs out, and otherwise OK with `TempRaw` and `HumRaw`
the big-endian 16-bit values of the two bytes read in each measurement. -/
theorem SHT1x_ReadSample_first_error {σ : Type} (B : Binding σ) (cfg : Config)
    (k : ConversionConstants) (Handler : SHT1x_Handler_t ℚ) (Sample : SHT1x_Sample_t ℚ)
    (s : σ) :
    (commandAcked B SHT1x_CMD_MEASURE_TEMP s = false →
        (SHT1x_ReadSample B cfg k Handler Sample s).1 = .SHT1x_FAIL)
      ∧ (commandAcked B SHT1x_CMD_MEASURE_TEMP s = true →
          dataReady B SHT1x_CMD_MEASURE_TEMP s = false →
        (SHT1x_ReadSample B cfg k Handler Sample s).1 = .SHT1x_TIME_OUT)
      ∧ (commandAcked B SHT1x_CMD_MEASURE_TEMP s = true →
          dataReady B SHT1x_CMD_MEASURE_TEMP s = true →
          commandAcked B SHT1x_CMD_MEASURE_HUM (humidityStart B s) = false →
        (SHT1x_ReadSample B cfg k Handler Sample s).1 = .SHT1x_FAIL)
      ∧ (commandAcked B SHT1x_CMD_MEASURE_TEMP s = true →
          dataReady B SHT1x_CMD_MEASURE_TEMP s = true →
          commandAcked B SHT1x_CMD_MEASURE_HUM (humidityStart B s) = true →
          dataReady B SHT1x_CMD_MEASURE_HUM (humidityStart B s) = false →
        (SHT1x_ReadSample B cfg k Handler Sample s).1 = .SHT1x_TIME_OUT)
      ∧ (commandAcked B SHT1x_CMD_MEASURE_TEMP s = true →
          dataReady B SHT1x_CMD_MEASURE_TEMP s = true →
          commandAcked B SHT1x_CMD_MEASURE_HUM (humidityStart B s) = true →
          dataReady B SHT1x_CMD_MEASURE_HUM (humidityStart B s) = true →
        (SHT1x_ReadSample B cfg k Handler Sample s).1 = .SHT1x_OK
          ∧ (SHT1x_ReadSample B cfg k Handler Sample s).2.1.TempRaw
              = (highByte B SHT1x_CMD_MEASURE_TEMP s).1 * 256
                + (lowByte B SHT1x_CMD_MEASURE_TEMP s).1
          ∧ (SHT1x_ReadSample B cfg k Handler Sample s).2.1.HumRaw
              = (highByte B SHT1x_CMD_MEASURE_HUM (humidityStart B s)).1 * 256
                + (lowByte B SHT1x_CMD_MEASURE_HUM (humidityStart B s)).1
          ∧ (highByte B SHT1x_CMD_MEASURE_TEMP s).1 < 256
          ∧ (lowByte B SHT1x_CMD_MEASURE_TEMP s).1 < 256
          ∧ (highByte B SHT1x_CMD_MEASURE_HUM (humidityStart B s)).1 < 256
          ∧ (lowByte B SHT1x_CMD_MEASURE_HUM (humidityStart B s)).1 < 256
          ∧ (SHT1x_ReadSample B cfg k Handler Sample s).2.2
              = (lowByte B SHT1x_CMD_MEASURE_HUM (humidityStart B s)).2) := by
  have hst : ∀ Raw, (SHT1x_Measure B SHT1x_CMD_MEASURE_TEMP Raw s).2.2 = humidityStart B s :=
    fun Raw => (SHT1x_Measure_state B SHT1x_CMD_MEASURE_TEMP Raw 0 s).1
  refine ⟨?_, ?_, ?_, ?_, ?_⟩
  · intro h1
    simp [SHT1x_ReadSample, SHT1x_Measure_eq, h1]
  · intro h1 h2
    simp [SHT1x_ReadSample, SHT1x_Measure_eq, h1, h2]
  · intro h1 h2 h3
    have hs : (lowByte B SHT1x_CMD_MEASURE_TEMP s).2 = humidityStart B s := by
      rw [← hst 0, SHT1x_Measure_eq]; simp [h1, h2]
    simp [SHT1x_ReadSample, SHT1x_Measure_eq, h1, h2, hs, h3]
  · intro h1 h2 h3 h4
    have hs : (lowByte B SHT1x_CMD_MEASURE_TEMP s).2 = humidityStart B s := by
      rw [← hst 0, SHT1x_Measure_eq]; simp [h1, h2]
    simp [SHT1x_ReadSample, SHT1x_Measure_eq, h1, h2, hs, h3, h4]
  · intro h1 h2 h3 h4
    have hs : (lowByte B SHT1x_CMD_MEASURE_TEMP s).2 = humidityStart B s := by
      rw [← hst 0, SHT1x_Measure_eq]; simp [h1, h2]
    refine ⟨?_, ?_, ?_, SHT1x_ReadByte_lt _ _ _, SHT1x_ReadByte_lt _ _ _,
      SHT1x_ReadByte_lt _ _ _, SHT1x_ReadByte_lt _ _ _, ?_⟩ <;>
      simp [SHT1x_ReadSample, SHT1x_Measure_eq, h1, h2, hs, h3, h4]

/-- Witness of C6 on the scripted platform: the temperature measurement is acknowledged,
becomes ready and delivers the bytes 0x07 and 0x57; the humidity command is acknowledged
but the data line then stays high, and the call returns TIME_OUT. -/
theorem SHT1x_ReadSample_first_error_witness :
    (SHT1x_ReadSample scriptedBinding defaultConfig zeroConstants sampleHandler zeroSample
        (measurementLevels 0x07 0x57 ++ [0])).1 = .SHT1x_TIME_OUT :=
  (SHT1x_ReadSample_first_error scriptedBinding defaultConfig zeroConstants sampleHandler
      zeroSample (measurementLevels 0x07 0x57 ++ [0])).2.2.2.1
    (by decide) (by decide) (by decide) (by decide)

end SHT1x

namespace SHT1x

/-- When `SHT1x_ReadSample` returns OK, both measurements were acknowledged and became
ready, and the sample holds the converted temperature of the raw count it stores. -/
theorem SHT1x_ReadSample_ok_celsius {σ : Type} (B : Binding σ) (cfg : Config)
    (k : ConversionConstants) (Handler : SHT1x_Handler_t ℚ) (Sample : SHT1x_Sample_t ℚ)
    (s : σ) (hok : (SHT1x_ReadSample B cfg k Handler Sample s).1 = .SHT1x_OK) :
    (SHT1x_ReadSample B cfg k Handler Sample s).2.1.TempCelsius
        = SHT1x_TempCelsius k Handler (SHT1x_ReadSample B cfg k Handler Sample s).2.1.TempRaw
      ∧ (SHT1x_ReadSample B cfg k Handler Sample s).2.1.TempRaw < 65536 := by
  have hhi := SHT1x_ReadByte_lt B 0 (afterWait B SHT1x_CMD_MEASURE_TEMP s).2
  have hlo := SHT1x_ReadByte_lt B 1 (highByte B SHT1x_CMD_MEASURE_TEMP s).2
  have hhi2 : (highByte B SHT1x_CMD_MEASURE_TEMP s).1 < 256 := hhi
  have hlo2 : (lowByte B SHT1x_CMD_MEASURE_TEMP s).1 < 256 := hlo
  by_cases h1 : commandAcked B SHT1x_CMD_MEASURE_TEMP s = false
  · simp [SHT1x_ReadSample, SHT1x_Measure_eq, h1] at hok
  by_cases h2 : dataReady B SHT1x_CMD_MEASURE_TEMP s = false
  · simp [SHT1x_ReadSample, SHT1x_Measure_eq, h1, h2] at hok
  by_cases h3 : commandAcked B SHT1x_CMD_MEASURE_HUM
      (lowByte B SHT1x_CMD_MEASURE_TEMP s).2 = false
  · simp [SHT1x_ReadSample, SHT1x_Measure_eq, h1, h2, h3] at hok
  by_cases h4 : dataReady B SHT1x_CMD_MEASURE_HUM
      (lowByte B SHT1x_CMD_MEASURE_TEMP s).2 = false
  · simp [SHT1x_ReadSample, SHT1x_Measure_eq, h1, h2, h3, h4] at hok
  constructor
  · simp [SHT1x_ReadSample, SHT1x_Measure_eq, h1, h2, h3, h4]
  · have hraw : (SHT1x_ReadSample B cfg k Handler Sample s).2.1.TempRaw
        = (highByte B SHT1x_CMD_MEASURE_TEMP s).1 * 256
          + (lowByte B SHT1x_CMD_MEASURE_TEMP s).1 := by
      simp [SHT1x_ReadSample, SHT1x_Measure_eq, h1, h2, h3, h4]
    rw [hraw]
    omega

/-- C5. At high resolution and 5 V supply (the handle's `D1Celsius` is -40.1), the Celsius
temperature `SHT1x_ReadSample` stores in a sample is `-40.1 + 0.01 * TempRaw`, the stored
`TempRaw` being a 16-bit count; the conversion gives `-40.1 + 0.01 * raw` for every 16-bit
raw count, and for the raw count 0x0757 = 1879 the result is within 0.01 of -21.31. -/
theorem SHT1x_ReadSample_celsius_high_resolution_5V {σ : Type} (B : Binding σ)
    (cfg : Config) (k : ConversionConstants) (Handler : SHT1x_Handler_t ℚ)
    (Sample : SHT1x_Sample_t ℚ) (s : σ)
    (hres : Handler.ResolutionStatus = .SHT1x_HighResolution)
    (hD1 : Handler.D1Celsius = SHT1x_D1_5V)
    (hok : (SHT1x_ReadSample B cfg k Handler Sample s).1 = .SHT1x_OK) :
    (SHT1x_ReadSample B cfg k Handler Sample s).2.1.TempCelsius
        = -401 / 10 + 1 / 100 * ((SHT1x_ReadSample B cfg k Handler Sample s).2.1.TempRaw : ℚ)
      ∧ (SHT1x_ReadSample B cfg k Handler Sample s).2.1.TempRaw < 65536
      ∧ ((SHT1x_ReadSample B cfg k Handler Sample s).2.1.TempRaw = 0x0757 →
          |(SHT1x_ReadSample B cfg k Handler Sample s).2.1.TempCelsius - (-2131 / 100)|
            ≤ 1 / 100)
      ∧ (∀ raw : Nat, raw < 65536 →
          SHT1x_TempCelsius k Handler raw = -401 / 10 + 1 / 100 * (raw : ℚ))
      ∧ |SHT1x_TempCelsius k Handler 1879 - (-2131 / 100)| ≤ 1 / 100 := by
  have hconv : ∀ raw : Nat,
      SHT1x_TempCelsius k Handler raw = -401 / 10 + 1 / 100 * (raw : ℚ) := by
    intro raw
    simp [SHT1x_TempCelsius, SHT1x_D2, hres, hD1, SHT1x_D1_5V]
  have h := SHT1x_ReadSample_ok_celsius B cfg k Handler Sample s hok
  refine ⟨?_, h.2, ?_, fun raw _ => hconv raw, ?_⟩
  · rw [h.1, hconv]
  · intro hraw
    rw [h.1, hconv, hraw]
    norm_num
  · rw [hconv]
    norm_num

/-- Witness of C5 on the scripted platform: both measurements succeed, the temperature
bytes are 0x07 and 0x57, and the handle is at high resolution with the 5 V offset. -/
theorem SHT1x_ReadSample_celsius_high_resolution_5V_witness :
    (sampleHandler.ResolutionStatus = .SHT1x_HighResolution
        ∧ sampleHandler.D1Celsius = SHT1x_D1_5V
        ∧ (SHT1x_ReadSample scriptedBinding defaultConfig zeroConstants sampleHandler
            zeroSample (measurementLevels 0x07 0x57 ++ measurementLevels 0x05 0x39)).1
          = .SHT1x_OK)
      ∧ |(SHT1x_ReadSample scriptedBinding defaultConfig zeroConstants sampleHandler
            zeroSample
            (measurementLevels 0x07 0x57 ++ measurementLevels 0x05 0x39)).2.1.TempCelsius
          - (-2131 / 100)| ≤ 1 / 100 :=
  ⟨⟨rfl, rfl, by decide⟩,
    (SHT1x_ReadSample_celsius_high_resolution_5V scriptedBinding defaultConfig zeroConstants
        sampleHandler zeroSample
        (measurementLevels 0x07 0x57 ++ measurementLevels 0x05 0x39)
        rfl rfl (by decide)).2.2.1 (by decide)⟩

end SHT1x
